import Mathlib

/-!
Verification development for the pyRTE-RRTMGP example notebooks.

The repository under study consists of two Jupyter notebooks
(`examples/pyRTE-quick-start.ipynb`, a quick-start notebook and an
all-sky validation notebook) that drive the pyrte_rrtmgp library:
they load optics data, synthesize an idealized atmosphere, compute gas
and cloud optical properties, solve the radiative transfer equation
and compare the resulting fluxes with bundled reference data.

The notebooks' own code (the `make_profiles` helper, the sequence of
calls, and the `np.isclose` validation assertions) is embedded
directly from the source.  The library functions the notebooks call
(`compute_RCE_profiles`, `compute_gas_optics`, `compute_cloud_optics`,
`add_to`, `rte_solve`) are part of the pyRTE-RRTMGP project but their
implementation is not among the files examined here; where a claim
depends on them they are modelled from the specification, and each
such definition says so in its doc comment.

Real numbers of the Python code are modelled by `ℚ`.
-/

namespace PyRTE

/-! ## Numpy tolerance comparison and the notebooks' validation cells

The all-sky notebook validates fluxes with
`assert np.isclose(fluxes[v], ref_data[w].T, atol=1e-7).all()`.
`np.isclose(a, b, rtol, atol)` is `|a - b| <= atol + rtol * |b|`
elementwise, with default `rtol=1e-5`; the notebook passes only
`atol=1e-7`, leaving `rtol` at its default. -/

/-- Absolute value on `ℚ` written out so it evaluates by cases. -/
def ratAbs (q : ℚ) : ℚ := if q < 0 then -q else q

theorem ratAbs_eq_abs (q : ℚ) : ratAbs q = |q| := by
  rw [ratAbs]
  split
  · rw [abs_of_neg]; assumption
  · rw [abs_of_nonneg]; exact le_of_not_lt (by assumption)

/-- Elementwise numpy closeness predicate: `|a - b| ≤ atol + rtol * |b|`
(numpy's documented formula, `equal_nan` irrelevant over `ℚ`). -/
def npIsclose (rtol atol a b : ℚ) : Bool :=
  decide (ratAbs (a - b) ≤ atol + rtol * ratAbs b)

/-- Numpy's default relative tolerance `1e-5`. -/
def npDefaultRtol : ℚ := 1 / 100000

/-- The notebook's absolute tolerance `1e-7`. -/
def refAtol : ℚ := 1 / 10000000

/-- Two-dimensional arrays as lists of rows of rationals. -/
abbrev Arr2 := List (List ℚ)

/-- Numpy's `.T` on a rectangular two-dimensional array: entry `(j, i)`
of the result is entry `(i, j)` of the argument.  The notebook only
transposes rectangular flux arrays, where this index description is the
transpose. -/
def transposeT (A : Arr2) : Arr2 :=
  match A with
  | [] => []
  | r :: _ => (List.range r.length).map fun j => A.map fun row => row.getD j 0

/-- Elementwise `np.isclose(A, B, atol).all()` for same-shaped
two-dimensional arrays, `rtol` left at the numpy default: true when the
shapes agree and every pair of entries is close. -/
def npAllcloseAtol (atol : ℚ) (A B : Arr2) : Bool :=
  A.length == B.length &&
    (List.zip A B).all fun p =>
      p.1.length == p.2.length &&
        (List.zip p.1 p.2).all fun q => npIsclose npDefaultRtol atol q.1 q.2

/-- Longwave fluxes returned by `rte_solve`: per-column, per-level
upward and downward flux arrays (dimensions `column × level`). -/
structure LwFluxes where
  lw_flux_up : Arr2
  lw_flux_down : Arr2

/-- Bundled longwave reference data `REF_LW_NO_AEROSOL`: flux arrays
stored transposed relative to the computed fluxes. -/
structure LwRef where
  lw_flux_up : Arr2
  lw_flux_dn : Arr2

/-- Shortwave fluxes returned by `rte_solve`: per-column, per-level
upward, total downward and direct-beam downward flux arrays. -/
structure SwFluxes where
  sw_flux_up : Arr2
  sw_flux_down : Arr2
  sw_flux_dir : Arr2

/-- Bundled shortwave reference data `REF_SW_NO_AEROSOL`. -/
structure SwRef where
  sw_flux_up : Arr2
  sw_flux_dn : Arr2
  sw_flux_dir : Arr2

/-- The longwave validation cell of the all-sky notebook: both
`np.isclose(fluxes[v], ref_data[w].T, atol=1e-7).all()` assertions
succeed. -/
def lwValidation (f : LwFluxes) (r : LwRef) : Bool :=
  npAllcloseAtol refAtol f.lw_flux_up (transposeT r.lw_flux_up) &&
    npAllcloseAtol refAtol f.lw_flux_down (transposeT r.lw_flux_dn)

/-- The shortwave validation cell of the all-sky notebook: all three
`np.isclose` assertions (up, down, direct) succeed. -/
def swValidation (f : SwFluxes) (r : SwRef) : Bool :=
  npAllcloseAtol refAtol f.sw_flux_up (transposeT r.sw_flux_up) &&
    npAllcloseAtol refAtol f.sw_flux_down (transposeT r.sw_flux_dn) &&
      npAllcloseAtol refAtol f.sw_flux_dir (transposeT r.sw_flux_dir)

/-- Proposition form of elementwise closeness with a per-entry tolerance
function `tol` of the reference entry: shapes agree and
`|a - b| ≤ tol b` for each aligned pair. -/
def CloseAll (tol : ℚ → ℚ) (A B : Arr2) : Prop :=
  A.length = B.length ∧
    ∀ p ∈ List.zip A B, p.1.length = p.2.length ∧
      ∀ q ∈ List.zip p.1 p.2, |q.1 - q.2| ≤ tol q.2

/-- The tolerance the notebook actually enforces on each entry:
`1e-7 + 1e-5 * |reference|`. -/
def effTol (b : ℚ) : ℚ := refAtol + npDefaultRtol * |b|

/-- The tolerance the claim describes: the absolute tolerance `1e-7`
alone, independent of the reference entry. -/
def atolOnly (_b : ℚ) : ℚ := refAtol

theorem npAllcloseAtol_iff (atol : ℚ) (A B : Arr2) :
    npAllcloseAtol atol A B = true ↔
      CloseAll (fun b => atol + npDefaultRtol * |b|) A B := by
  unfold npAllcloseAtol CloseAll npIsclose
  simp [List.all_eq_true, ratAbs_eq_abs]

end PyRTE

namespace PyRTE

/-! ## The `make_profiles` helper (defined identically in both notebooks)

```python
def make_profiles(ncol=24, nlay=72):
    atmosphere = compute_RCE_profiles(300, ncol, nlay)
    gas_values = {"co2": 348e-6, "ch4": 1650e-9, "n2o": 306e-9,
                  "n2": 0.7808, "o2": 0.2095, "co": 0.0}
    for gas_name, value in gas_values.items():
        atmosphere[gas_name] = value
    return atmosphere
```

An xarray `Dataset` is modelled extensionally as a partial map from
variable names to values; `atmosphere[name] = value` is pointwise
update. -/

/-- An xarray dataset viewed as a partial map from variable names to
values of some type `α`. -/
def Dataset (α : Type) := String → Option α

/-- Item assignment `d[k] = v` on a dataset. -/
def setVar {α : Type} (d : Dataset α) (k : String) (v : α) : Dataset α :=
  fun n => if n = k then some v else d n

/-- The `gas_values` dictionary of `make_profiles`, in insertion order. -/
def gas_values : List (String × ℚ) :=
  [("co2", 348 / 1000000), ("ch4", 1650 / 1000000000),
   ("n2o", 306 / 1000000000), ("n2", 7808 / 10000),
   ("o2", 2095 / 10000), ("co", 0)]

/-- The notebooks' `make_profiles`: build the RCE atmosphere with
`compute_RCE_profiles(300, ncol, nlay)` (supplied here as the parameter
`compute_RCE_profiles`, since its implementation is outside the
notebooks), then assign each entry of `gas_values` in order.  `scalar`
injects a rational constant into the dataset's value type. -/
def make_profiles {α : Type} (scalar : ℚ → α)
    (compute_RCE_profiles : ℚ → ℕ → ℕ → Dataset α)
    (ncol : ℕ := 24) (nlay : ℕ := 72) : Dataset α :=
  gas_values.foldl (fun d p => setVar d p.1 (scalar p.2))
    (compute_RCE_profiles 300 ncol nlay)

/-- C1 (corrected form).  The validation cells succeed exactly when
every computed flux entry is within `1e-7 + 1e-5 * |reference|` of the
transposed reference entry: the notebook passes `atol=1e-7` to
`np.isclose` but leaves the default relative tolerance `rtol=1e-5` in
force, so the tolerance actually enforced is not the absolute `1e-7`
alone. -/
theorem validation_iff_effective_tolerance :
    ∀ (f : LwFluxes) (r : LwRef) (g : SwFluxes) (s : SwRef),
      (lwValidation f r = true ↔
        CloseAll effTol f.lw_flux_up (transposeT r.lw_flux_up) ∧
          CloseAll effTol f.lw_flux_down (transposeT r.lw_flux_dn)) ∧
      (swValidation g s = true ↔
        CloseAll effTol g.sw_flux_up (transposeT s.sw_flux_up) ∧
          CloseAll effTol g.sw_flux_down (transposeT s.sw_flux_dn) ∧
            CloseAll effTol g.sw_flux_dir (transposeT s.sw_flux_dir)) := by
  intro f r g s
  have h : ∀ A B : Arr2, npAllcloseAtol refAtol A B = true ↔ CloseAll effTol A B := by
    intro A B
    have := npAllcloseAtol_iff refAtol A B
    simpa [effTol] using this
  constructor
  · rw [lwValidation, Bool.and_eq_true, h, h]
  · rw [swValidation, Bool.and_eq_true, Bool.and_eq_true, h, h, h, and_assoc]

/-- C1 (counterexample to the claim as stated).  With computed longwave
flux `100` and reference `100.00005` (and the down fluxes agreeing
exactly), the validation succeeds although the flux differs from the
transposed reference by `5e-5 > 1e-7`; so the validation is not
equivalent to agreement within the absolute tolerance `1e-7`. -/
theorem validation_not_equiv_atol_only :
    lwValidation ⟨[[100]], [[50]]⟩ ⟨[[2000001 / 20000]], [[50]]⟩ = true ∧
      ¬ CloseAll atolOnly [[(100 : ℚ)]] (transposeT [[2000001 / 20000]]) := by
  constructor
  · norm_num [lwValidation, npAllcloseAtol, npIsclose, transposeT, ratAbs,
      npDefaultRtol, refAtol, List.range_succ]
  · intro hc
    have h1 := (hc.2 ([100], [2000001 / 20000]) (by simp [transposeT, List.range_succ])).2
      (100, 2000001 / 20000) (by simp)
    rw [atolOnly, refAtol,
      show (100 : ℚ) - 2000001 / 20000 = -(1 / 20000) by norm_num, abs_neg,
      abs_of_nonneg (by norm_num : (0 : ℚ) ≤ 1 / 20000)] at h1
    norm_num at h1

/-- C6.  `make_profiles(ncol, nlay)` returns the atmosphere produced by
`compute_RCE_profiles(300, ncol, nlay)` with exactly the six gas
variables of `gas_values` assigned their constant values, and every
other variable unchanged. -/
theorem make_profiles_adds_exactly_gas_values {α : Type} (scalar : ℚ → α)
    (compute_RCE_profiles : ℚ → ℕ → ℕ → Dataset α) (ncol nlay : ℕ) :
    (∀ p ∈ gas_values,
      make_profiles scalar compute_RCE_profiles ncol nlay p.1 = some (scalar p.2)) ∧
    (∀ name : String, name ∉ gas_values.map Prod.fst →
      make_profiles scalar compute_RCE_profiles ncol nlay name =
        compute_RCE_profiles 300 ncol nlay name) := by
  constructor
  · intro p hp
    simp only [gas_values, List.mem_cons, List.not_mem_nil, or_false] at hp
    rcases hp with h | h | h | h | h | h <;> subst h <;>
      simp [make_profiles, gas_values, setVar]
  · intro name hname
    simp only [gas_values, List.map_cons, List.map_nil, List.mem_cons,
      List.not_mem_nil, or_false, not_or] at hname
    obtain ⟨h1, h2, h3, h4, h5, h6⟩ := hname
    simp [make_profiles, gas_values, setVar, h1, h2, h3, h4, h5, h6]

/-- Witness for C6 at concrete inputs: with `scalar = id` and a base
atmosphere holding only `h2o`, the returned dataset has `co2` set to
`348e-6` and `h2o` unchanged. -/
theorem make_profiles_adds_exactly_gas_values_witness :
    make_profiles (id : ℚ → ℚ)
        (fun _ _ _ => fun n => if n = "h2o" then some 1 else none) 24 72 "co2" =
      some ((348 : ℚ) / 1000000) ∧
    make_profiles (id : ℚ → ℚ)
        (fun _ _ _ => fun n => if n = "h2o" then some 1 else none) 24 72 "h2o" =
      some 1 :=
  ⟨(make_profiles_adds_exactly_gas_values (id : ℚ → ℚ)
      (fun _ _ _ => fun n => if n = "h2o" then some 1 else none) 24 72).1
      ("co2", 348 / 1000000) (by simp [gas_values]),
   ((make_profiles_adds_exactly_gas_values (id : ℚ → ℚ)
      (fun _ _ _ => fun n => if n = "h2o" then some 1 else none) 24 72).2
      "h2o" (by simp [gas_values])).trans (by simp)⟩

end PyRTE

namespace PyRTE

/-! ## The notebooks as event traces

For the ordering claims the two notebooks are embedded as the sequence
of pyRTE library calls their code cells perform, in program order
(arguments are evaluated before the call, as in Python). -/

/-- The spectral band of an optics object or problem. -/
inductive Band where
  | lw
  | sw
deriving DecidableEq

/-- The `problem_type` selector passed to the optics functions
(`OpticsProblemTypes.ABSORPTION` / `OpticsProblemTypes.TWO_STREAM`). -/
inductive OpticsProblemType where
  | absorption
  | twoStream
deriving DecidableEq

/-- Boundary-condition variables assigned on an optical-properties
dataset before solving.  Assigning `surface_albedo` supplies both the
direct and the diffuse albedo. -/
inductive BCVar where
  | surfaceEmissivity
  | surfaceAlbedo
  | surfaceAlbedoDirect
  | surfaceAlbedoDiffuse
  | mu0
deriving DecidableEq

/-- Direction of an `add_to` call: in `c.add_to(g)` the cloud optical
properties `c` are added into the gas-optics result `g`. -/
inductive AddDirection where
  | cloudIntoGas
  | gasIntoCloud
deriving DecidableEq

/-- One pyRTE library call or dataset operation performed by a notebook
cell. -/
inductive Event where
  | loadCloudOptics (b : Band)
  | loadGasOptics (b : Band)
  | synthesizeAtmosphere
  | computeRCEClouds
  | mergeCloudPropsIntoAtmosphere
  | computeGasOptics (b : Band) (p : OpticsProblemType) (addToInput : Bool)
  | computeCloudOptics (b : Band)
  | addTo (b : Band) (dir : AddDirection) (deltaScale : Bool)
  | setBC (b : Band) (v : BCVar)
  | rteSolve (b : Band) (addToInput : Bool)
  | loadReference (b : Band)
  | compareWithReference (b : Band)
deriving DecidableEq

open Band OpticsProblemType BCVar AddDirection Event

/-- The quick-start notebook's cells as an event trace: load the four
optics datasets; build and cloud the atmosphere; longwave clear-sky
solve, then cloudy solve after `add_to`; shortwave combined-step solve;
the combined single-expression variant; and the dask variant on a new
atmosphere. -/
def notebook1Trace : List Event :=
  [loadCloudOptics lw, loadGasOptics lw, loadCloudOptics sw, loadGasOptics sw,
   synthesizeAtmosphere, computeRCEClouds, mergeCloudPropsIntoAtmosphere,
   computeGasOptics lw absorption false,
   setBC lw surfaceEmissivity,
   rteSolve lw false,
   computeCloudOptics lw,
   addTo lw cloudIntoGas false,
   rteSolve lw false,
   computeCloudOptics sw,
   computeGasOptics sw twoStream false,
   addTo sw cloudIntoGas true,
   setBC sw surfaceAlbedo, setBC sw mu0,
   rteSolve sw false,
   computeCloudOptics sw,
   computeGasOptics sw twoStream false,
   addTo sw cloudIntoGas true,
   setBC sw surfaceAlbedo, setBC sw mu0,
   rteSolve sw false,
   synthesizeAtmosphere, computeRCEClouds, mergeCloudPropsIntoAtmosphere,
   computeCloudOptics sw,
   computeGasOptics sw twoStream false,
   addTo sw cloudIntoGas true,
   setBC sw surfaceAlbedo, setBC sw mu0,
   rteSolve sw false]

/-- The all-sky validation notebook's cells as an event trace: longwave
pipeline ending in the reference comparison, then the shortwave
pipeline with its three comparisons. -/
def notebook2Trace : List Event :=
  [loadCloudOptics lw, loadGasOptics lw,
   synthesizeAtmosphere, computeRCEClouds, mergeCloudPropsIntoAtmosphere,
   computeGasOptics lw absorption false,
   setBC lw surfaceEmissivity,
   computeCloudOptics lw,
   addTo lw cloudIntoGas false,
   rteSolve lw false,
   loadReference lw,
   compareWithReference lw, compareWithReference lw,
   loadCloudOptics sw, loadGasOptics sw,
   synthesizeAtmosphere, computeRCEClouds, mergeCloudPropsIntoAtmosphere,
   computeGasOptics sw twoStream false,
   computeCloudOptics sw,
   addTo sw cloudIntoGas true,
   setBC sw surfaceAlbedoDirect, setBC sw surfaceAlbedoDiffuse, setBC sw mu0,
   rteSolve sw false,
   loadReference sw,
   compareWithReference sw, compareWithReference sw, compareWithReference sw]

/-- Scanner state: which prerequisites have been seen so far while
walking a trace.  Boundary-condition flags of a band are reset whenever
a fresh gas-optics dataset for that band is computed, since the
notebooks assign boundary conditions on the gas-optics result. -/
structure SeenState where
  loadGasLw : Bool
  loadGasSw : Bool
  loadCloudLw : Bool
  loadCloudSw : Bool
  synth : Bool
  gasLw : Bool
  gasSw : Bool
  cloudLw : Bool
  cloudSw : Bool
  mergedLw : Bool
  mergedSw : Bool
  bcLwEmis : Bool
  bcSwAlbDir : Bool
  bcSwAlbDif : Bool
  bcSwMu0 : Bool
  solvedLw : Bool
  solvedSw : Bool

/-- The scanner's initial state: nothing seen yet. -/
def initSeen : SeenState :=
  ⟨false, false, false, false, false, false, false, false, false,
   false, false, false, false, false, false, false, false⟩

/-- Update the scanner state with one event. -/
def stepSeen (s : SeenState) : Event → SeenState
  | loadCloudOptics lw => { s with loadCloudLw := true }
  | loadCloudOptics sw => { s with loadCloudSw := true }
  | loadGasOptics lw => { s with loadGasLw := true }
  | loadGasOptics sw => { s with loadGasSw := true }
  | synthesizeAtmosphere => { s with synth := true }
  | computeRCEClouds => s
  | mergeCloudPropsIntoAtmosphere => s
  | computeGasOptics lw _ _ =>
      { s with gasLw := true, mergedLw := false, bcLwEmis := false }
  | computeGasOptics sw _ _ =>
      { s with gasSw := true, mergedSw := false,
               bcSwAlbDir := false, bcSwAlbDif := false, bcSwMu0 := false }
  | computeCloudOptics lw => { s with cloudLw := true }
  | computeCloudOptics sw => { s with cloudSw := true }
  | addTo lw _ _ => { s with mergedLw := true }
  | addTo sw _ _ => { s with mergedSw := true }
  | setBC lw surfaceEmissivity => { s with bcLwEmis := true }
  | setBC lw _ => s
  | setBC sw surfaceAlbedo => { s with bcSwAlbDir := true, bcSwAlbDif := true }
  | setBC sw surfaceAlbedoDirect => { s with bcSwAlbDir := true }
  | setBC sw surfaceAlbedoDiffuse => { s with bcSwAlbDif := true }
  | setBC sw mu0 => { s with bcSwMu0 := true }
  | setBC sw _ => s
  | rteSolve lw _ => { s with solvedLw := true }
  | rteSolve sw _ => { s with solvedSw := true }
  | loadReference _ => s
  | compareWithReference _ => s

/-- Does the state allow event `e` under the pipeline ordering?  When
`requireMerge` is set, every solve additionally demands that cloud
optical properties have been merged into the current gas-optics result
(the literal reading of the claimed fixed order). -/
def allowEvent (requireMerge : Bool) (s : SeenState) : Event → Bool
  | computeGasOptics lw _ _ => s.loadGasLw && s.synth
  | computeGasOptics sw _ _ => s.loadGasSw && s.synth
  | computeCloudOptics lw => s.loadCloudLw && s.synth
  | computeCloudOptics sw => s.loadCloudSw && s.synth
  | addTo lw dir _ => s.gasLw && s.cloudLw && (dir == cloudIntoGas)
  | addTo sw dir _ => s.gasSw && s.cloudSw && (dir == cloudIntoGas)
  | rteSolve lw _ => s.gasLw && s.bcLwEmis && (!requireMerge || s.mergedLw)
  | rteSolve sw _ =>
      s.gasSw && s.bcSwAlbDir && s.bcSwAlbDif && s.bcSwMu0 &&
        (!requireMerge || s.mergedSw)
  | compareWithReference lw => s.solvedLw
  | compareWithReference sw => s.solvedSw
  | _ => true

/-- Walk a trace checking every event against the pipeline ordering. -/
def checkTrace (requireMerge : Bool) : SeenState → List Event → Bool
  | _, [] => true
  | s, e :: rest =>
      allowEvent requireMerge s e && checkTrace requireMerge (stepSeen s e) rest

/-- A notebook trace follows the pipeline order: optics data are loaded
and the atmosphere synthesized before optics are computed, gas and
cloud optics are computed before an `add_to` merge, every `add_to`
merges cloud into gas, every `rte_solve` happens with the boundary
conditions of its band set on the current gas-optics dataset, and
reference comparisons happen only after a solve. -/
def orderedPipeline (t : List Event) : Bool := checkTrace false initSeen t

/-- The claimed fixed order: `orderedPipeline` strengthened so that
every solve is also preceded by a cloud-into-gas merge of the current
gas-optics dataset. -/
def orderedPipelineWithMerge (t : List Event) : Bool := checkTrace true initSeen t

end PyRTE

namespace PyRTE

/-- Does an `add_to` event in the trace apply delta scaling exactly when
its band is shortwave? -/
def addToDeltaScaleMatchesBand (t : List Event) : Bool :=
  t.all fun e =>
    match e with
    | Event.addTo b _ ds => ds == (b == Band.sw)
    | _ => true

/-- Is the `problem_type` selector passed to `compute_gas_optics`
two-stream exactly for the shortwave band? -/
def gasOpticsProblemMatchesBand (t : List Event) : Bool :=
  t.all fun e =>
    match e with
    | Event.computeGasOptics b p _ => (p == OpticsProblemType.twoStream) == (b == Band.sw)
    | _ => true

/-- C5 (counterexample to the claim as stated).  The quick-start
notebook computes its first longwave fluxes (`clr_fluxes`) from the
gas-optics result alone, before any cloud optical properties have been
computed or merged, so under the literal fixed order, which puts the
cloud-into-gas merge before every solve, the trace is rejected. -/
theorem quickstart_solves_before_any_cloud_merge :
    orderedPipelineWithMerge notebook1Trace = false := by decide

/-- C5 (amended).  Both notebook traces follow the pipeline order:
optics data are loaded and the atmosphere synthesized before optics are
computed, gas and cloud optics are both computed before each `add_to`,
every `add_to` merges cloud optical properties into the gas-optics
result and never the reverse, every `rte_solve` call happens only after
the boundary conditions of its band (`surface_emissivity` for longwave;
a surface albedo and `mu0` for shortwave) are set on the current
gas-optics dataset, and comparisons with stored reference arrays happen
only after a solve; the cloud-optics merge step is skipped for the
quick-start notebook's clear-sky longwave solve. -/
theorem notebooks_follow_pipeline_order :
    orderedPipeline notebook1Trace = true ∧ orderedPipeline notebook2Trace = true := by
  exact ⟨by decide, by decide⟩

/-- C7.  In both notebooks, `add_to` is called with `delta_scale=True`
exactly when combining cloud and gas optical properties for the
shortwave problem, whose gas optics are computed with the two-stream
selector, and without delta scaling for the longwave absorption
problem. -/
theorem delta_scale_exactly_for_shortwave_two_stream :
    (addToDeltaScaleMatchesBand notebook1Trace &&
      addToDeltaScaleMatchesBand notebook2Trace) = true ∧
    (gasOpticsProblemMatchesBand notebook1Trace &&
      gasOpticsProblemMatchesBand notebook2Trace) = true := by
  exact ⟨by decide, by decide⟩

end PyRTE

namespace PyRTE

/-! ## Dimension-level dataset model

For the claims about variable names and dimensions, a dataset is a list
of variables, each with named, sized dimensions.  The library functions
that produce these datasets are not among the files examined here and
are modelled from the specification and the notebooks' own markdown
descriptions of their outputs. -/

/-- Named, sized dimensions of one variable. -/
abbrev Dims := List (String × ℕ)

/-- A dataset at the level of variable names and dimensions. -/
abbrev DimDataset := List (String × Dims)

/-- Every occurrence of dimension `dim` in the dataset has size `n`. -/
def dimConsistentSize (d : DimDataset) (dim : String) (n : ℕ) : Bool :=
  d.all fun v => v.2.all fun ds => ds.1 != dim || ds.2 == n

/-- Some variable of the dataset carries dimension `dim`. -/
def usesDim (d : DimDataset) (dim : String) : Bool :=
  d.any fun v => v.2.any fun ds => ds.1 == dim

/-- A variable whose dimensions are among `column` and `layer`:
it is defined (possibly by broadcast of a scalar) on layers. -/
def onLayers (dims : Dims) : Bool :=
  dims.all fun ds => ds.1 == "column" || ds.1 == "layer"

/-- Modelled from the spec: `compute_RCE_profiles(300, ncol, nlay)`
(implementation not among the files examined) returns per-column
temperature and pressure on both vertical coordinates, a surface
temperature, and the water-vapor concentration on layers, with `nlay`
layers and `nlay + 1` levels. -/
def compute_RCE_profiles_dims (ncol nlay : ℕ) : DimDataset :=
  [("pres_layer", [("column", ncol), ("layer", nlay)]),
   ("temp_layer", [("column", ncol), ("layer", nlay)]),
   ("pres_level", [("column", ncol), ("level", nlay + 1)]),
   ("temp_level", [("column", ncol), ("level", nlay + 1)]),
   ("surface_temperature", [("column", ncol)]),
   ("h2o", [("column", ncol), ("layer", nlay)])]

/-- `make_profiles` at the dimension level: the RCE profile plus the six
constant gas concentrations, each assigned as a scalar (dimensionless,
broadcast over columns and layers where used). -/
def make_profiles_dims (ncol nlay : ℕ) : DimDataset :=
  compute_RCE_profiles_dims ncol nlay ++ gas_values.map fun p => (p.1, [])

/-- Modelled from the spec: `compute_RCE_clouds` (implementation not
among the files examined) returns liquid and ice water path and
effective particle sizes on columns and layers. -/
def compute_RCE_clouds_dims (ncol nlay : ℕ) : DimDataset :=
  [("lwp", [("column", ncol), ("layer", nlay)]),
   ("iwp", [("column", ncol), ("layer", nlay)]),
   ("rel", [("column", ncol), ("layer", nlay)]),
   ("rei", [("column", ncol), ("layer", nlay)])]

/-- `xarray.Dataset.merge` at the dimension level: the variables of both
datasets together. -/
def mergeDims (a b : DimDataset) : DimDataset := a ++ b

/-- The seven gas-concentration variable names of the atmosphere. -/
def gasNames : List String := "h2o" :: gas_values.map Prod.fst

/-- C10.  Every atmosphere from `make_profiles(ncol, nlay)` has `nlay`
layers and `nlay + 1` levels (every use of the two vertical dimensions
is consistently sized, with both dimensions in use), pressure and
temperature defined on both vertical coordinates, and all seven gas
concentrations defined on layers; merging in the cloud properties
preserves all of it. -/
theorem make_profiles_vertical_invariant :
    ∀ ncol nlay : ℕ,
      ∀ d ∈ [make_profiles_dims ncol nlay,
             mergeDims (make_profiles_dims ncol nlay) (compute_RCE_clouds_dims ncol nlay)],
        (dimConsistentSize d "layer" nlay && dimConsistentSize d "level" (nlay + 1) &&
          usesDim d "layer" && usesDim d "level") = true ∧
        ("pres_layer", [("column", ncol), ("layer", nlay)]) ∈ d ∧
        ("temp_layer", [("column", ncol), ("layer", nlay)]) ∈ d ∧
        ("pres_level", [("column", ncol), ("level", nlay + 1)]) ∈ d ∧
        ("temp_level", [("column", ncol), ("level", nlay + 1)]) ∈ d ∧
        ∀ g ∈ gasNames, ∃ dims, (g, dims) ∈ d ∧ onLayers dims = true := by
  intro ncol nlay d hd
  simp only [List.mem_cons, List.not_mem_nil, or_false] at hd
  rcases hd with h | h <;> subst h <;>
    refine ⟨by simp [dimConsistentSize, usesDim, mergeDims, make_profiles_dims,
        compute_RCE_profiles_dims, compute_RCE_clouds_dims, gas_values],
      by simp [mergeDims, make_profiles_dims, compute_RCE_profiles_dims],
      by simp [mergeDims, make_profiles_dims, compute_RCE_profiles_dims],
      by simp [mergeDims, make_profiles_dims, compute_RCE_profiles_dims],
      by simp [mergeDims, make_profiles_dims, compute_RCE_profiles_dims], ?_⟩ <;>
    · intro g hg
      simp only [gasNames, gas_values, List.map_cons, List.map_nil, List.mem_cons,
        List.not_mem_nil, or_false] at hg
      rcases hg with h | h | h | h | h | h | h <;> subst h
      · exact ⟨[("column", ncol), ("layer", nlay)],
          by simp [mergeDims, make_profiles_dims, compute_RCE_profiles_dims],
          by simp [onLayers]⟩
      · exact ⟨[], by simp [mergeDims, make_profiles_dims, gas_values], by simp [onLayers]⟩
      · exact ⟨[], by simp [mergeDims, make_profiles_dims, gas_values], by simp [onLayers]⟩
      · exact ⟨[], by simp [mergeDims, make_profiles_dims, gas_values], by simp [onLayers]⟩
      · exact ⟨[], by simp [mergeDims, make_profiles_dims, gas_values], by simp [onLayers]⟩
      · exact ⟨[], by simp [mergeDims, make_profiles_dims, gas_values], by simp [onLayers]⟩
      · exact ⟨[], by simp [mergeDims, make_profiles_dims, gas_values], by simp [onLayers]⟩

end PyRTE

namespace PyRTE

/-- Witness for C10 at `ncol = 2`, `nlay = 3`: the profile dataset has
consistently sized vertical dimensions with four levels, and holds
layer pressure with the expected dimensions. -/
theorem make_profiles_vertical_invariant_witness :
    (dimConsistentSize (make_profiles_dims 2 3) "layer" 3 &&
      dimConsistentSize (make_profiles_dims 2 3) "level" (3 + 1) &&
      usesDim (make_profiles_dims 2 3) "layer" &&
      usesDim (make_profiles_dims 2 3) "level") = true ∧
    ("pres_layer", [("column", 2), ("layer", 3)]) ∈ make_profiles_dims 2 3 := by
  have h := make_profiles_vertical_invariant 2 3 (make_profiles_dims 2 3) (by simp)
  exact ⟨h.1, h.2.1⟩

/-- Modelled from the spec: the output variables of `rte_solve`
(implementation not among the files examined), per band: per-column,
per-level upward and downward fluxes for a longwave problem; upward,
total downward and direct-beam fluxes for a shortwave problem. -/
def rte_solve_output_vars (b : Band) (ncol nlev : ℕ) : DimDataset :=
  match b with
  | Band.lw =>
      [("lw_flux_up", [("column", ncol), ("level", nlev)]),
       ("lw_flux_down", [("column", ncol), ("level", nlev)])]
  | Band.sw =>
      [("sw_flux_up", [("column", ncol), ("level", nlev)]),
       ("sw_flux_down", [("column", ncol), ("level", nlev)]),
       ("sw_flux_dir", [("column", ncol), ("level", nlev)])]

/-- Modelled from the spec: at each column and level the shortwave
solver resolves the downwelling radiation into a direct-beam and a
diffuse component; `rte_solve` reports the upward flux, the total
downward flux and the direct-beam component. -/
structure SwFluxPoint where
  flux_up : ℚ
  flux_dir : ℚ
  flux_dif : ℚ

/-- The total downwelling shortwave flux at a point: direct beam plus
diffuse. -/
def sw_flux_down_val (p : SwFluxPoint) : ℚ := p.flux_dir + p.flux_dif

/-- C2.  `rte_solve` returns per-column, per-level flux fields:
`lw_flux_up` and `lw_flux_down` for a longwave problem, and
`sw_flux_up`, `sw_flux_down` and `sw_flux_dir` for a shortwave problem;
`sw_flux_dir` is the direct-beam component of the downwelling flux, so
with a nonnegative diffuse component it never exceeds `sw_flux_down`,
which it and the diffuse flux compose. -/
theorem rte_solve_returns_flux_fields :
    ∀ ncol nlev : ℕ,
      ((rte_solve_output_vars Band.lw ncol nlev).map Prod.fst =
          ["lw_flux_up", "lw_flux_down"] ∧
        (rte_solve_output_vars Band.sw ncol nlev).map Prod.fst =
          ["sw_flux_up", "sw_flux_down", "sw_flux_dir"] ∧
        ∀ b : Band, ∀ v ∈ rte_solve_output_vars b ncol nlev,
          v.2 = [("column", ncol), ("level", nlev)]) ∧
      ∀ p : SwFluxPoint, 0 ≤ p.flux_dif →
        sw_flux_down_val p - p.flux_dir = p.flux_dif ∧
          p.flux_dir ≤ sw_flux_down_val p := by
  intro ncol nlev
  refine ⟨⟨by simp [rte_solve_output_vars], by simp [rte_solve_output_vars], ?_⟩, ?_⟩
  · intro b v hv
    cases b <;> simp only [rte_solve_output_vars, List.mem_cons,
      List.not_mem_nil, or_false] at hv
    · rcases hv with h | h <;> subst h <;> rfl
    · rcases hv with h | h | h <;> subst h <;> rfl
  · intro p hp
    constructor
    · rw [sw_flux_down_val]; ring
    · rw [sw_flux_down_val]; linarith

/-- Witness for C2 at `ncol = 2`, `nlev = 4` and the flux point
`(up, dir, dif) = (5, 2, 1)`: the longwave output variables are as
stated and the direct beam is bounded by the total downward flux. -/
theorem rte_solve_returns_flux_fields_witness :
    (rte_solve_output_vars Band.lw 2 4).map Prod.fst = ["lw_flux_up", "lw_flux_down"] ∧
      (("sw_flux_dir", [("column", 2), ("level", 4)]) : String × Dims).2 =
        [("column", 2), ("level", 4)] ∧
      SwFluxPoint.flux_dir ⟨5, 2, 1⟩ ≤ sw_flux_down_val ⟨5, 2, 1⟩ :=
  ⟨(rte_solve_returns_flux_fields 2 4).1.1,
   (rte_solve_returns_flux_fields 2 4).1.2.2 Band.sw
     ("sw_flux_dir", [("column", 2), ("level", 4)])
     (by simp [rte_solve_output_vars]),
   ((rte_solve_returns_flux_fields 2 4).2 ⟨5, 2, 1⟩ (by norm_num)).2⟩

/-- Modelled from the spec: the output variables of
`compute_gas_optics` (implementation not among the files examined), per
problem-type selector.  For absorption problems: spectrally resolved
optical depth `tau` plus the Planck source at layers, levels and the
surface.  For two-stream problems: `tau`, single-scattering albedo
`ssa` and asymmetry parameter `g`, plus the shortwave sources
(`toa_source`, `level_source`, `surface_source`). -/
def compute_gas_optics_output_vars (p : OpticsProblemType)
    (ncol nlay ngpt : ℕ) : DimDataset :=
  match p with
  | OpticsProblemType.absorption =>
      [("tau", [("column", ncol), ("layer", nlay), ("gpt", ngpt)]),
       ("layer_source", [("column", ncol), ("layer", nlay), ("gpt", ngpt)]),
       ("level_source", [("column", ncol), ("level", nlay + 1), ("gpt", ngpt)]),
       ("surface_source", [("column", ncol), ("gpt", ngpt)])]
  | OpticsProblemType.twoStream =>
      [("tau", [("column", ncol), ("layer", nlay), ("gpt", ngpt)]),
       ("ssa", [("column", ncol), ("layer", nlay), ("gpt", ngpt)]),
       ("g", [("column", ncol), ("layer", nlay), ("gpt", ngpt)]),
       ("toa_source", [("column", ncol), ("gpt", ngpt)]),
       ("level_source", [("column", ncol), ("level", nlay + 1), ("gpt", ngpt)]),
       ("surface_source", [("column", ncol), ("gpt", ngpt)])]

/-- Does variable `name` of the dataset exist and carry a `gpt`
(spectral) dimension? -/
def hasSpectralVar (d : DimDataset) (name : String) : Bool :=
  d.any fun v => v.1 == name && v.2.any fun ds => ds.1 == "gpt"

/-- C3.  With the absorption selector, `compute_gas_optics` returns
spectrally resolved `tau` together with `layer_source`, `level_source`
and `surface_source`; with the two-stream selector it returns `tau`,
`ssa` and `g` plus the shortwave source terms.  Every source term is
spectrally resolved as well. -/
theorem compute_gas_optics_outputs :
    ∀ ncol nlay ngpt : ℕ,
      (∀ name ∈ ["tau", "layer_source", "level_source", "surface_source"],
        hasSpectralVar
          (compute_gas_optics_output_vars OpticsProblemType.absorption ncol nlay ngpt)
          name = true) ∧
      (∀ name ∈ ["tau", "ssa", "g", "toa_source", "level_source", "surface_source"],
        hasSpectralVar
          (compute_gas_optics_output_vars OpticsProblemType.twoStream ncol nlay ngpt)
          name = true) := by
  intro ncol nlay ngpt
  refine ⟨?_, ?_⟩
  · intro name hname
    simp only [List.mem_cons, List.not_mem_nil, or_false] at hname
    rcases hname with h | h | h | h <;> subst h <;>
      simp [hasSpectralVar, compute_gas_optics_output_vars]
  · intro name hname
    simp only [List.mem_cons, List.not_mem_nil, or_false] at hname
    rcases hname with h | h | h | h | h | h <;> subst h <;>
      simp [hasSpectralVar, compute_gas_optics_output_vars]

/-- Witness for C3 at `ncol = 2`, `nlay = 3`, `ngpt = 16`: the
absorption output carries spectrally resolved `tau`, and the two-stream
output spectrally resolved `ssa`. -/
theorem compute_gas_optics_outputs_witness :
    hasSpectralVar
        (compute_gas_optics_output_vars OpticsProblemType.absorption 2 3 16) "tau" = true ∧
      hasSpectralVar
        (compute_gas_optics_output_vars OpticsProblemType.twoStream 2 3 16) "ssa" = true :=
  ⟨(compute_gas_optics_outputs 2 3 16).1 "tau" (by simp),
   (compute_gas_optics_outputs 2 3 16).2 "ssa" (by simp)⟩

end PyRTE

namespace PyRTE

/-! ## Environment model for in-place and frame effects

The notebooks bind datasets to Python variables (`atmosphere`,
`optical_props`, ...).  To state what a call mutates and what it leaves
alone, an environment maps variable names to datasets, and each library
call is a function from the environment to the environment after the
call (together with the call's return value where relevant). -/

/-- A Python variable environment binding names to datasets. -/
def Env (α : Type) := String → Dataset α

/-- Rebinding one variable of the environment. -/
def updateEnv {α : Type} (env : Env α) (x : String) (d : Dataset α) : Env α :=
  fun y => if y = x then d else env y

/-- Modelled from the spec: `c.add_to(g)` (implementation not among the
files examined) combines the cloud optical properties bound to `c` into
the optical-properties dataset bound to `g` — the external combination,
with its optional delta scaling, is the parameter `combine` — updating
`g` in place and returning the combined dataset. -/
def add_to_call {α : Type} (combine : Dataset α → Dataset α → Dataset α)
    (env : Env α) (c g : String) : Env α × Dataset α :=
  (updateEnv env g (combine (env c) (env g)), combine (env c) (env g))

/-- C4.  `C.add_to(G)` updates `G` in place to the combined
cloud-plus-gas optical properties, and the value it returns is that
same updated dataset: after the call the binding of `G` and the
returned dataset are equal (both the combination of the old `C` and
`G`). -/
theorem add_to_updates_in_place_and_returns_it :
    ∀ (α : Type) (combine : Dataset α → Dataset α → Dataset α)
      (env : Env α) (c g : String),
      (add_to_call combine env c g).1 g = combine (env c) (env g) ∧
        (add_to_call combine env c g).1 g = (add_to_call combine env c g).2 := by
  intro α combine env c g
  constructor <;> simp [add_to_call, updateEnv]

/-- Modelled from the spec: `r = go.compute_gas_optics(atm, ...,
add_to_input=False)` computes a fresh optical-properties dataset from
the atmosphere bound to `atm` (the external computation is the
parameter `gasOptics`) and binds it to `r`; with `add_to_input=False`
nothing is written into the input dataset. -/
def compute_gas_optics_call {α : Type} (gasOptics : Dataset α → Dataset α)
    (env : Env α) (r atm : String) : Env α :=
  updateEnv env r (gasOptics (env atm))

/-- Modelled from the spec: `f = rte_solve(props, add_to_input=False)`
computes a fresh flux dataset from the optical-properties dataset bound
to `props` (the external solver is the parameter `solver`) and binds it
to `f`; with `add_to_input=False` nothing is written into the input
dataset. -/
def rte_solve_call {α : Type} (solver : Dataset α → Dataset α)
    (env : Env α) (f props : String) : Env α :=
  updateEnv env f (solver (env props))

/-- C8.  With `add_to_input=False`, `compute_gas_optics` and
`rte_solve` bind their result to a new variable and leave the input
dataset untouched: after the call the input variable holds exactly the
dataset (same variables and values) it held before. -/
theorem add_to_input_false_leaves_input_unchanged :
    ∀ (α : Type) (gasOptics solver : Dataset α → Dataset α)
      (env : Env α) (r atm f props : String),
      (r ≠ atm →
        compute_gas_optics_call gasOptics env r atm atm = env atm) ∧
      (f ≠ props →
        rte_solve_call solver env f props props = env props) := by
  intro α gasOptics solver env r atm f props
  constructor
  · intro h
    simp [compute_gas_optics_call, updateEnv, Ne.symm h]
  · intro h
    simp [rte_solve_call, updateEnv, Ne.symm h]

/-- Witness for C8 with the notebooks' variable names: binding the
result to `optical_props` leaves `atmosphere` unchanged, and binding
the fluxes to `fluxes` leaves `optical_props` unchanged (sample
environment holding `tau` at `1` everywhere). -/
theorem add_to_input_false_leaves_input_unchanged_witness :
    (compute_gas_optics_call (fun d => d) (fun _ _ => some (1 : ℚ))
        "optical_props" "atmosphere" "atmosphere" =
      (fun _ _ => some (1 : ℚ) : Env ℚ) "atmosphere") ∧
    (rte_solve_call (fun d => d) (fun _ _ => some (1 : ℚ))
        "fluxes" "optical_props" "optical_props" =
      (fun _ _ => some (1 : ℚ) : Env ℚ) "optical_props") :=
  ⟨(add_to_input_false_leaves_input_unchanged ℚ (fun d => d) (fun d => d)
      (fun _ _ => some (1 : ℚ)) "optical_props" "atmosphere" "fluxes"
      "optical_props").1 (by decide),
   (add_to_input_false_leaves_input_unchanged ℚ (fun d => d) (fun d => d)
      (fun _ _ => some (1 : ℚ)) "optical_props" "atmosphere" "fluxes"
      "optical_props").2 (by decide)⟩

/-- Modelled from the spec: `rte_solve` produces per-column fluxes, the
flux profile of each column computed by one per-column solve (the
external per-column solver is the parameter `solveColumn`) from that
column's inputs alone. -/
def rte_solve_columns {γ δ : Type} (solveColumn : γ → δ) (cols : List γ) :
    List δ :=
  cols.map solveColumn

/-- C9.  The pipeline is deterministic per column: if two columns of
the solver input carry identical per-layer and per-level data, the
fluxes `rte_solve` returns for those two columns are identical. -/
theorem rte_solve_deterministic_per_column :
    ∀ (γ δ : Type) (solveColumn : γ → δ) (cols : List γ) (i j : ℕ),
      cols[i]? = cols[j]? →
        (rte_solve_columns solveColumn cols)[i]? =
          (rte_solve_columns solveColumn cols)[j]? := by
  intro γ δ solveColumn cols i j h
  simp only [rte_solve_columns, List.getElem?_map, h]

/-- Witness for C9: on a two-column input with both columns equal, the
solver output is equal in the two columns. -/
theorem rte_solve_deterministic_per_column_witness :
    ([[3], [3]] : List (List ℕ))[0]? = ([[3], [3]] : List (List ℕ))[1]? ∧
      (rte_solve_columns List.sum [[3], [3]])[0]? =
        (rte_solve_columns List.sum [[3], [3]])[1]? :=
  ⟨rfl, rte_solve_deterministic_per_column (List ℕ) ℕ List.sum [[3], [3]] 0 1 rfl⟩

end PyRTE
